import Mathlib

/-!
Verification model of `src/main.rs` of Thewsthews/tool-rs, a webhook-driven
WhatsApp responder: a warp HTTP endpoint parses an inbound message, an inline
handler matches a trigger word, generates a vCard and sends it through the
Infobip provider; `main` also creates an mpsc channel and spawns a background
loop reading from it.

Modelling conventions:
* Rust `String` is Lean `String`; `str::to_lowercase` is modelled as the
  per-character simple lowercase mapping; `str::contains` as a naive scan
  over tails (equivalent to substring existence).
* The opaque provider call `client.send_text` is a parameter: each call site
  receives the provider's outcome as an `Except String Unit` argument.
* Side effects (logging, card generation, provider sends, sleeps) are
  reified as an `Event` list returned alongside the Rust return value.
-/

namespace ToolRs

/-- Model of Rust `str::to_lowercase` (simple per-character mapping). -/
def rustToLower (s : String) : String :=
  String.mk (s.data.map Char.toLower)

/-- Model of Rust `str::contains` with a string pattern: naive scan trying the
pattern as a prefix of every tail of the haystack. -/
def rustContains (hay pat : String) : Bool :=
  hay.data.tails.any (fun t => pat.data.isPrefixOf t)

/-- `some_module::Config` from `src/main.rs` lines 14–21. -/
structure Config where
  infobip_api_key : String
  infobip_base_url : String
  whatsapp_phone_number_id : String
  trigger_word : String
  recipient_phone_number : String
deriving DecidableEq, Repr

/-- `WhatsAppMessage` from `src/main.rs` lines 25–29: `from` is a required
string field, `text` is optional. -/
structure WhatsAppMessage where
  «from» : String
  text : Option String
deriving DecidableEq, Repr

/-- `VCard` from `src/main.rs` lines 32–37. -/
structure VCard where
  first_name : String
  last_name : String
  phone_number : String
deriving DecidableEq, Repr

/-- Reified side effects of the program. -/
inductive Event where
  | logInfo (msg : String)
  | logError (msg : String)
  | generateCard (card : String)
  | providerSend (sender recipient body : String)
  | sleepSecs (n : Nat)
deriving DecidableEq, Repr

/-- Outcome of the opaque provider call, supplied by the environment. -/
abbrev SendResult := Except String Unit

/-- `generate_vcard` from `src/main.rs` lines 56–61:
`format!("BEGIN:VCARD\nVERSION:3.0\nN:{};{}\nTEL;TYPE=CELL:{}\nEND:VCARD", last, first, phone)`. -/
def generate_vcard (contact : VCard) : String :=
  "BEGIN:VCARD\nVERSION:3.0\nN:" ++ contact.last_name ++ ";" ++ contact.first_name
    ++ "\nTEL;TYPE=CELL:" ++ contact.phone_number ++ "\nEND:VCARD"

/-- `send_vcard` from `src/main.rs` lines 84–117: formats the outbound body,
calls the provider once, logs the outcome, and propagates the error. -/
def send_vcard (config : Config) (vcard : String) (recipient : String)
    (providerResult : SendResult) : List Event × SendResult :=
  let message := "Here is the contact vCard:\n" ++ vcard
  let attempt := Event.providerSend config.whatsapp_phone_number_id recipient message
  match providerResult with
  | Except.ok _ =>
      ([attempt, Event.logInfo ("vCard sent successfully to " ++ recipient)], Except.ok ())
  | Except.error e =>
      ([attempt, Event.logError ("Failed to send vCard: " ++ e)], Except.error e)

/-- The trigger matcher inlined in `handle_webhook` lines 127–130: lowercase
both operands, then `message_text.contains(&trigger_word)`. -/
def matchesTrigger (text trigger : String) : Bool :=
  rustContains (rustToLower text) (rustToLower trigger)

/-- The hardcoded example contact built in `handle_webhook` lines 134–138. -/
def exampleContact : VCard :=
  { first_name := "John", last_name := "Doe", phone_number := "1234567890" }

/-- `handle_webhook` from `src/main.rs` lines 120–147. Returns the emitted
events together with the HTTP status code and plain-text body of the reply.
The Rust function always returns `Ok(reply)`; the reply's status is 500 with
body "Failed to send vCard" when the trigger fired and the send failed, and
200 with body "Message processed" otherwise. -/
def handle_webhook (config : Config) (message : WhatsAppMessage)
    (providerResult : SendResult) : List Event × Nat × String :=
  let recvLog := Event.logInfo ("Received message from " ++ message.«from»)
  let trigger_word := rustToLower config.trigger_word
  let message_text := rustToLower (message.text.getD "")
  if rustContains message_text trigger_word then
    let detectLog :=
      Event.logInfo ("Trigger word " ++ trigger_word ++ " detected from " ++ message.«from»)
    let contact := exampleContact
    let vcard := generate_vcard contact
    let sendStep := send_vcard config vcard config.recipient_phone_number providerResult
    match sendStep.2 with
    | Except.error e =>
        (recvLog :: detectLog :: Event.generateCard vcard :: sendStep.1
            ++ [Event.logError ("Error sending vCard: " ++ e)],
          500, "Failed to send vCard")
    | Except.ok _ =>
        (recvLog :: detectLog :: Event.generateCard vcard :: sendStep.1,
          200, "Message processed")
  else
    ([recvLog], 200, "Message processed")

/-- A minimal JSON value AST for the webhook request body. -/
inductive Json where
  | null
  | bool (b : Bool)
  | num (n : Int)
  | str (s : String)
  | arr (elems : List Json)
  | obj (fields : List (String × Json))

/-- First value bound to a key in a JSON object's field list. -/
def lookupField : List (String × Json) → String → Option Json
  | [], _ => none
  | (k, v) :: rest, key => if k = key then some v else lookupField rest key

/-- serde deserialization of a required `String` field value. -/
def parseStringField : Json → Option String
  | Json.str s => some s
  | _ => none

/-- serde deserialization of an `Option<String>` field value: `null` maps to
`None`, a string to `Some`. -/
def parseOptStringField : Json → Option (Option String)
  | Json.null => some none
  | Json.str s => some (some s)
  | _ => none

/-- serde `Deserialize` for `WhatsAppMessage` (lines 25–29): the body must be
a JSON object; `from` must be present and a string (no emptiness check);
`text` is optional — absent or `null` become `None`. Unknown fields are
ignored (serde default). -/
def parseWhatsAppMessage : Json → Option WhatsAppMessage
  | Json.obj fields =>
      match lookupField fields "from" with
      | none => none
      | some fv =>
          match parseStringField fv with
          | none => none
          | some f =>
              match lookupField fields "text" with
              | none => some { «from» := f, text := none }
              | some tv =>
                  match parseOptStringField tv with
                  | none => none
                  | some t => some { «from» := f, text := t }
  | _ => none

/-- The warp route from `main` lines 178–183: deserialize the JSON body and
call `handle_webhook` with the shared config and client. On a body that fails
to deserialize, warp rejects the request and its default rejection handler
replies 400 Bad Request without invoking the handler (the reply body is
warp's own text, abstracted here as ""). -/
def webhookRoute (config : Config) (body : Json) (providerResult : SendResult) :
    List Event × Nat × String :=
  match parseWhatsAppMessage body with
  | none => ([], 400, "")
  | some message => handle_webhook config message providerResult

/-- One iteration of the spawned dispatcher loop, `main` lines 168–177: call
`handle_webhook` on the received message (its warp reply is discarded; the
`if let Err` branch is unreachable since the handler always returns `Ok`),
then sleep one second unconditionally. -/
def dispatcherCycle (config : Config) (message : WhatsAppMessage)
    (providerResult : SendResult) : List Event :=
  (handle_webhook config message providerResult).1 ++ [Event.sleepSecs 1]

/-- The dispatcher loop unrolled over a queue of messages, each paired with
the provider outcome its cycle would observe. -/
def dispatcherLoop (config : Config) :
    List (WhatsAppMessage × SendResult) → List Event
  | [] => []
  | (message, r) :: rest => dispatcherCycle config message r ++ dispatcherLoop config rest

/-- Which task emitted an event. -/
inductive Origin where
  | http
  | dispatcher
deriving DecidableEq, Repr

/-- Observable state of the running process: the mpsc channel's buffered
messages and the trace of emitted events tagged by the emitting task. -/
structure SysState where
  queue : List WhatsAppMessage
  trace : List (Origin × Event)
deriving DecidableEq, Repr

/-- Steps of the running system, `main` lines 149–187. An HTTP request runs
the warp route in the serving context; note that the route never touches the
channel — the producer handle `tx` created at line 163 is never used, so no
step enqueues. The dispatcher can fire only when the channel has a buffered
message. -/
inductive SysStep (config : Config) : SysState → SysState → Prop
  | httpRequest (s : SysState) (body : Json) (r : SendResult) :
      SysStep config s
        ⟨s.queue, s.trace ++ (webhookRoute config body r).1.map (fun e => (Origin.http, e))⟩
  | dispatch (s : SysState) (message : WhatsAppMessage) (rest : List WhatsAppMessage)
      (r : SendResult) :
      s.queue = message :: rest →
      SysStep config s
        ⟨rest, s.trace ++ (dispatcherCycle config message r).map (fun e => (Origin.dispatcher, e))⟩

/-- Initial state: empty channel, no events. -/
def initState : SysState := ⟨[], []⟩

/-- Reachability from the initial state. -/
def Reachable (config : Config) (s : SysState) : Prop :=
  Relation.ReflTransGen (SysStep config) initState s

/-! ## Helper lemmas -/

theorem rustContains_iff (hay pat : String) :
    rustContains hay pat = true ↔ ∃ l r, hay.data = l ++ pat.data ++ r := by
  unfold rustContains
  rw [List.any_eq_true]
  constructor
  · rintro ⟨t, ht, hp⟩
    rw [List.mem_tails] at ht
    rw [List.isPrefixOf_iff_prefix] at hp
    obtain ⟨l, r, h⟩ := List.infix_iff_prefix_suffix.mpr ⟨t, hp, ht⟩
    exact ⟨l, r, h.symm⟩
  · rintro ⟨l, r, h⟩
    obtain ⟨t, hp, hs⟩ := List.infix_iff_prefix_suffix.mp ⟨l, r, h.symm⟩
    exact ⟨t, (List.mem_tails _ _).mpr hs, List.isPrefixOf_iff_prefix.mpr hp⟩

theorem rustToLower_data (s : String) :
    (rustToLower s).data = s.data.map Char.toLower := rfl

theorem eq_empty_of_data_eq_nil {s : String} (h : s.data = []) : s = "" := by
  cases s with
  | mk data => cases h; rfl

/-- A non-empty trigger never matches empty text. -/
theorem matchesTrigger_empty_text {trigger : String} (h : trigger ≠ "") :
    matchesTrigger "" trigger = false := by
  rcases Bool.eq_false_or_eq_true (matchesTrigger "" trigger) with hb | hb
  · exfalso
    rw [matchesTrigger, rustContains_iff] at hb
    obtain ⟨l, r, hlr⟩ := hb
    have hnil : (rustToLower "").data = [] := rfl
    rw [hnil] at hlr
    obtain ⟨hlp, hr⟩ := List.append_eq_nil.mp hlr.symm
    obtain ⟨hl, hp⟩ := List.append_eq_nil.mp hlp
    rw [rustToLower_data, List.map_eq_nil_iff] at hp
    exact h (eq_empty_of_data_eq_nil hp)
  · exact hb

/-- Number of provider send attempts in an event list. -/
def countSends (es : List Event) : Nat :=
  (es.filter (fun e => match e with
    | Event.providerSend _ _ _ => true
    | _ => false)).length

/-- Number of generated cards in an event list. -/
def countGenerates (es : List Event) : Nat :=
  (es.filter (fun e => match e with
    | Event.generateCard _ => true
    | _ => false)).length

/-- Number of sleeps in an event list. -/
def countSleeps (es : List Event) : Nat :=
  (es.filter (fun e => match e with
    | Event.sleepSecs _ => true
    | _ => false)).length

/-- The (sender, recipient, body) triples of the provider sends in an event
list, in order. -/
def sendTriples (es : List Event) : List (String × String × String) :=
  es.filterMap (fun e => match e with
    | Event.providerSend a b c => some (a, b, c)
    | _ => none)

/-- Per-call send count of the handler: one provider send iff the trigger
matched. -/
theorem countSends_handle (config : Config) (message : WhatsAppMessage) (r : SendResult) :
    countSends (handle_webhook config message r).1
      = if matchesTrigger (message.text.getD "") config.trigger_word then 1 else 0 := by
  cases r with
  | ok u =>
      simp only [handle_webhook, matchesTrigger, send_vcard]
      split
      · simp [countSends]
      · simp [countSends]
  | error e =>
      simp only [handle_webhook, matchesTrigger, send_vcard]
      split
      · simp [countSends]
      · simp [countSends]

/-- Per-call card count of the handler: one generated card iff the trigger
matched. -/
theorem countGenerates_handle (config : Config) (message : WhatsAppMessage) (r : SendResult) :
    countGenerates (handle_webhook config message r).1
      = if matchesTrigger (message.text.getD "") config.trigger_word then 1 else 0 := by
  cases r with
  | ok u =>
      simp only [handle_webhook, matchesTrigger, send_vcard]
      split
      · simp [countGenerates]
      · simp [countGenerates]
  | error e =>
      simp only [handle_webhook, matchesTrigger, send_vcard]
      split
      · simp [countGenerates]
      · simp [countGenerates]

/-- The handler itself never sleeps. -/
theorem countSleeps_handle (config : Config) (message : WhatsAppMessage) (r : SendResult) :
    countSleeps (handle_webhook config message r).1 = 0 := by
  cases r with
  | ok u =>
      simp only [handle_webhook, matchesTrigger, send_vcard]
      split
      · simp [countSleeps]
      · simp [countSleeps]
  | error e =>
      simp only [handle_webhook, matchesTrigger, send_vcard]
      split
      · simp [countSleeps]
      · simp [countSleeps]

/-- The provider sends of a handler call: the single fixed outbound message
when the trigger matched, nothing otherwise. -/
theorem sendTriples_handle (config : Config) (message : WhatsAppMessage) (r : SendResult) :
    sendTriples (handle_webhook config message r).1
      = if matchesTrigger (message.text.getD "") config.trigger_word then
          [(config.whatsapp_phone_number_id, config.recipient_phone_number,
            "Here is the contact vCard:\n" ++ generate_vcard exampleContact)]
        else [] := by
  cases r with
  | ok u =>
      simp only [handle_webhook, matchesTrigger, send_vcard]
      split
      · simp [sendTriples]
      · simp [sendTriples]
  | error e =>
      simp only [handle_webhook, matchesTrigger, send_vcard]
      split
      · simp [sendTriples]
      · simp [sendTriples]

/-- HTTP status of a handler call: 500 on matched trigger with failed send,
200 otherwise. -/
theorem status_handle (config : Config) (message : WhatsAppMessage) (r : SendResult) :
    (handle_webhook config message r).2.1
      = if matchesTrigger (message.text.getD "") config.trigger_word then
          (match r with
           | Except.error _ => 500
           | Except.ok _ => 200)
        else 200 := by
  cases r with
  | ok u =>
      simp only [handle_webhook, matchesTrigger, send_vcard]
      split
      · simp
      · simp
  | error e =>
      simp only [handle_webhook, matchesTrigger, send_vcard]
      split
      · simp
      · simp

/-- On a matched trigger with a failed send, the handler logs the send
failure. -/
theorem logError_mem_handle (config : Config) (message : WhatsAppMessage) (e : String)
    (h : matchesTrigger (message.text.getD "") config.trigger_word = true) :
    Event.logError ("Failed to send vCard: " ++ e)
      ∈ (handle_webhook config message (Except.error e)).1 := by
  rw [matchesTrigger] at h
  simp only [handle_webhook, send_vcard, h]
  simp

/-! ## Claims -/

/-- Claim C4: the trigger matcher returns true iff the case-folded trigger is
a contiguous substring of the case-folded text; the empty trigger matches
every text, and empty text never matches a non-empty trigger. -/
theorem c4_matchesTrigger_spec (text trigger : String) :
    (matchesTrigger text trigger = true ↔
       ∃ l r, (rustToLower text).data = l ++ (rustToLower trigger).data ++ r)
    ∧ matchesTrigger text "" = true
    ∧ (trigger ≠ "" → matchesTrigger "" trigger = false) := by
  refine ⟨rustContains_iff _ _, ?_, ?_⟩
  · rw [matchesTrigger, rustContains_iff]
    exact ⟨[], (rustToLower text).data, by simp [rustToLower_data]⟩
  · exact fun h => matchesTrigger_empty_text h

theorem c4_matchesTrigger_spec_witness :
    matchesTrigger "" "addcontact" = false :=
  (c4_matchesTrigger_spec "" "addcontact").2.2 (by decide)

/-- Claim C5: the card generator is a deterministic function of the
ContactRecord, and on the John Doe example contact it yields exactly the
newline-joined vCard block. -/
theorem c5_generate_vcard_spec (c₁ c₂ : VCard) :
    (c₁.first_name = c₂.first_name → c₁.last_name = c₂.last_name →
       c₁.phone_number = c₂.phone_number → generate_vcard c₁ = generate_vcard c₂)
    ∧ generate_vcard
        { first_name := "John", last_name := "Doe", phone_number := "1234567890" }
        = "BEGIN:VCARD\nVERSION:3.0\nN:Doe;John\nTEL;TYPE=CELL:1234567890\nEND:VCARD" := by
  constructor
  · intro h1 h2 h3
    unfold generate_vcard
    rw [h1, h2, h3]
  · rfl

theorem c5_generate_vcard_spec_witness :
    generate_vcard { first_name := "John", last_name := "Doe", phone_number := "1234567890" }
      = generate_vcard { first_name := "John", last_name := "Doe", phone_number := "1234567890" } :=
  (c5_generate_vcard_spec _ _).1 rfl rfl rfl

/-! ## Concrete fixtures -/

/-- A concrete configuration with the default trigger word. -/
def cfgEx : Config :=
  { infobip_api_key := "key", infobip_base_url := "https://api.example",
    whatsapp_phone_number_id := "+100", trigger_word := "addcontact",
    recipient_phone_number := "+200" }

/-- A concrete request body whose text contains the trigger in mixed case. -/
def bodyEx : Json :=
  Json.obj [("from", Json.str "+155"), ("text", Json.str "please ADDCONTACT now")]

/-- The message `bodyEx` parses to. -/
def msgEx : WhatsAppMessage := { «from» := "+155", text := some "please ADDCONTACT now" }

/-- A concrete message whose text does not contain the trigger. -/
def msgNoMatch : WhatsAppMessage := { «from» := "+155", text := some "hello" }

/-- Claim C7: per processed message, exactly one card and one send attempt on
a trigger match, none otherwise; a missing text field behaves as the empty
string, so a non-empty trigger causes no send. -/
theorem c7_one_card_one_send_per_match (config : Config) (message : WhatsAppMessage)
    (r : SendResult) :
    (matchesTrigger (message.text.getD "") config.trigger_word = true →
       countGenerates (handle_webhook config message r).1 = 1
         ∧ countSends (handle_webhook config message r).1 = 1)
    ∧ (matchesTrigger (message.text.getD "") config.trigger_word = false →
       countGenerates (handle_webhook config message r).1 = 0
         ∧ countSends (handle_webhook config message r).1 = 0)
    ∧ (message.text = none → config.trigger_word ≠ "" →
       countSends (handle_webhook config message r).1 = 0) := by
  refine ⟨fun h => ?_, fun h => ?_, fun ht hw => ?_⟩
  · exact ⟨by rw [countGenerates_handle, h]; simp, by rw [countSends_handle, h]; simp⟩
  · exact ⟨by rw [countGenerates_handle, h]; simp, by rw [countSends_handle, h]; simp⟩
  · have hm : matchesTrigger (message.text.getD "") config.trigger_word = false := by
      rw [ht]
      exact matchesTrigger_empty_text hw
    rw [countSends_handle, hm]
    simp

theorem c7_one_card_one_send_per_match_witness :
    countGenerates (handle_webhook cfgEx msgEx (Except.ok ())).1 = 1
      ∧ countSends (handle_webhook cfgEx msgEx (Except.ok ())).1 = 1 :=
  (c7_one_card_one_send_per_match cfgEx msgEx (Except.ok ())).1 (by decide)

/-- Claim C10: every matched message causes exactly the fixed outbound
message — prefix "Here is the contact vCard:" plus newline plus the generated
card, not the bare card — to the configured recipient, and any two matched
messages produce byte-identical outbound sends. -/
theorem c10_outbound_fixed (config : Config) :
    (∀ (message : WhatsAppMessage) (r : SendResult),
        matchesTrigger (message.text.getD "") config.trigger_word = true →
        sendTriples (handle_webhook config message r).1
          = [(config.whatsapp_phone_number_id, config.recipient_phone_number,
              "Here is the contact vCard:\n" ++ generate_vcard exampleContact)])
    ∧ "Here is the contact vCard:\n" ++ generate_vcard exampleContact ≠ generate_vcard exampleContact
    ∧ (∀ (m₁ m₂ : WhatsAppMessage) (r₁ r₂ : SendResult),
        matchesTrigger (m₁.text.getD "") config.trigger_word = true →
        matchesTrigger (m₂.text.getD "") config.trigger_word = true →
        sendTriples (handle_webhook config m₁ r₁).1
          = sendTriples (handle_webhook config m₂ r₂).1) := by
  refine ⟨fun message r h => ?_, by decide, fun m₁ m₂ r₁ r₂ h₁ h₂ => ?_⟩
  · rw [sendTriples_handle, h]
    simp
  · rw [sendTriples_handle, sendTriples_handle, h₁, h₂]

theorem c10_outbound_fixed_witness :
    sendTriples (handle_webhook cfgEx msgEx (Except.ok ())).1
      = [(cfgEx.whatsapp_phone_number_id, cfgEx.recipient_phone_number,
          "Here is the contact vCard:\n" ++ generate_vcard exampleContact)] :=
  (c10_outbound_fixed cfgEx).1 msgEx (Except.ok ()) (by decide)

/-- Claim C3, counterexample: a body that parses, whose text matches the
trigger, with a failing provider send, gets HTTP status 500 — not 200 — so
the send failure is surfaced to the HTTP caller. -/
theorem c3_counterexample :
    (parseWhatsAppMessage bodyEx).isSome = true
    ∧ (webhookRoute cfgEx bodyEx (Except.error "provider down")).2.1 = 500 := by
  exact ⟨rfl, rfl⟩

/-- Claim C3 as amended: on a parsed body the status is 200 when no trigger
fires or the send succeeds, and 500 when the trigger fires and the send
fails (the failure is surfaced to the caller because the send happens inside
the handler). -/
theorem c3_amended_response_status (config : Config) (body : Json)
    (message : WhatsAppMessage) (r : SendResult)
    (hp : parseWhatsAppMessage body = some message) :
    ((matchesTrigger (message.text.getD "") config.trigger_word = false
        ∨ r = Except.ok ()) →
       (webhookRoute config body r).2.1 = 200)
    ∧ (∀ e, matchesTrigger (message.text.getD "") config.trigger_word = true →
        r = Except.error e → (webhookRoute config body r).2.1 = 500) := by
  have hroute : webhookRoute config body r = handle_webhook config message r := by
    simp [webhookRoute, hp]
  refine ⟨fun h => ?_, fun e hm hr => ?_⟩
  · rw [hroute, status_handle]
    rcases h with h | h
    · rw [h]
      simp
    · subst h
      split <;> simp
  · subst hr
    rw [hroute, status_handle, hm]
    simp

theorem c3_amended_response_status_witness :
    (webhookRoute cfgEx bodyEx (Except.ok ())).2.1 = 200 :=
  (c3_amended_response_status cfgEx bodyEx msgEx (Except.ok ()) (by decide)).1 (Or.inr rfl)

/-- Claim C6, counterexample: a dequeued item that does not match the trigger
still incurs the 1-second sleep in its dispatcher cycle. -/
theorem c6_counterexample :
    matchesTrigger (msgNoMatch.text.getD "") cfgEx.trigger_word = false
    ∧ Event.sleepSecs 1 ∈ dispatcherCycle cfgEx msgNoMatch (Except.ok ()) := by
  exact ⟨by decide, by decide⟩

/-- Claim C6 as amended: every dispatcher cycle ends with exactly one
1-second sleep, imposed unconditionally whether or not the item matched. -/
theorem c6_amended_unconditional_sleep (config : Config) (message : WhatsAppMessage)
    (r : SendResult) :
    countSleeps (dispatcherCycle config message r) = 1
    ∧ (dispatcherCycle config message r).getLast? = some (Event.sleepSecs 1) := by
  constructor
  · have h0 := countSleeps_handle config message r
    rw [countSleeps] at h0
    rw [dispatcherCycle, countSleeps, List.filter_append, List.length_append, h0]
    rfl
  · rw [dispatcherCycle]
    exact List.getLast?_concat _

/-- Concatenating queues concatenates the dispatcher loop's event traces. -/
theorem dispatcherLoop_append (config : Config)
    (xs ys : List (WhatsAppMessage × SendResult)) :
    dispatcherLoop config (xs ++ ys)
      = dispatcherLoop config xs ++ dispatcherLoop config ys := by
  induction xs with
  | nil => simp [dispatcherLoop]
  | cons x xs ih =>
      cases x with
      | mk m r => simp [dispatcherLoop, ih]

/-- Claim C8: a send failure on item K is non-fatal: the loop's trace splits
around K's cycle with every later item still processed, the failed cycle
attempts the send at most once (no retry), and the failure is logged. -/
theorem c8_send_failure_nonfatal (config : Config)
    (pre post : List (WhatsAppMessage × SendResult)) (message : WhatsAppMessage)
    (e : String) :
    dispatcherLoop config (pre ++ (message, Except.error e) :: post)
      = dispatcherLoop config pre
          ++ dispatcherCycle config message (Except.error e)
          ++ dispatcherLoop config post
    ∧ countSends (dispatcherCycle config message (Except.error e)) ≤ 1
    ∧ (matchesTrigger (message.text.getD "") config.trigger_word = true →
        Event.logError ("Failed to send vCard: " ++ e)
          ∈ dispatcherCycle config message (Except.error e)) := by
  refine ⟨?_, ?_, fun hm => ?_⟩
  · rw [dispatcherLoop_append]
    simp [dispatcherLoop, List.append_assoc]
  · have h0 := countSends_handle config message (Except.error e)
    rw [countSends] at h0
    rw [dispatcherCycle, countSends, List.filter_append, List.length_append, h0]
    split <;> simp
  · rw [dispatcherCycle]
    exact List.mem_append_left _ (logError_mem_handle config message e hm)

theorem c8_send_failure_nonfatal_witness :
    Event.logError ("Failed to send vCard: " ++ "boom")
      ∈ dispatcherCycle cfgEx msgEx (Except.error "boom") :=
  (c8_send_failure_nonfatal cfgEx [] [] msgEx "boom").2.2 (by decide)

/-- Claim C9, counterexample: a payload whose `from` field is the empty
string deserializes successfully — the parser does not require the sender to
be non-empty. -/
theorem c9_counterexample :
    parseWhatsAppMessage (Json.obj [("from", Json.str "")])
      = some { «from» := "", text := none } := rfl

/-- On a parsed message the body was an object whose first `from` binding is
the string the message carries. -/
theorem parse_from_field {body : Json} {message : WhatsAppMessage}
    (h : parseWhatsAppMessage body = some message) :
    ∃ fields, body = Json.obj fields
      ∧ lookupField fields "from" = some (Json.str message.«from») := by
  cases body with
  | obj fields =>
      refine ⟨fields, rfl, ?_⟩
      simp only [parseWhatsAppMessage] at h
      cases hf : lookupField fields "from" with
      | none => simp [hf] at h
      | some fv =>
          simp only [hf] at h
          cases fv with
          | str s =>
              simp only [parseStringField] at h
              cases ht : lookupField fields "text" with
              | none =>
                  simp only [ht] at h
                  injection h with h'
                  subst h'
                  rfl
              | some tv =>
                  simp only [ht] at h
                  cases tv with
                  | null =>
                      simp only [parseOptStringField, Option.map] at h
                      injection h with h'
                      subst h'
                      rfl
                  | str t =>
                      simp only [parseOptStringField, Option.map] at h
                      injection h with h'
                      subst h'
                      rfl
                  | bool b => simp [parseOptStringField] at h
                  | num n => simp [parseOptStringField] at h
                  | arr es => simp [parseOptStringField] at h
                  | obj fs => simp [parseOptStringField] at h
          | null => simp [parseStringField] at h
          | bool b => simp [parseStringField] at h
          | num n => simp [parseStringField] at h
          | arr es => simp [parseStringField] at h
          | obj fs => simp [parseStringField] at h
  | null => simp [parseWhatsAppMessage] at h
  | bool b => simp [parseWhatsAppMessage] at h
  | num n => simp [parseWhatsAppMessage] at h
  | str s => simp [parseWhatsAppMessage] at h
  | arr es => simp [parseWhatsAppMessage] at h

/-- Claim C9 as amended: parsing requires `from` to be present and a string
(possibly empty); a missing text field parses to `none` and the handler
treats it exactly like the empty string; on parse failure the route replies
400 with no events (no enqueue, no match, no send). -/
theorem c9_amended_parse_contract (config : Config) (body : Json) (r : SendResult) :
    (parseWhatsAppMessage body = none →
       webhookRoute config body r = ([], 400, ""))
    ∧ (∀ message, parseWhatsAppMessage body = some message →
        ∃ fields, body = Json.obj fields
          ∧ lookupField fields "from" = some (Json.str message.«from»))
    ∧ (∀ (f : String) (r' : SendResult),
        handle_webhook config { «from» := f, text := none } r'
          = handle_webhook config { «from» := f, text := some "" } r') := by
  refine ⟨fun hn => ?_, fun message hm => parse_from_field hm, fun f r' => rfl⟩
  simp [webhookRoute, hn]

theorem c9_amended_parse_contract_witness :
    webhookRoute cfgEx (Json.str "oops") (Except.ok ()) = ([], 400, "") :=
  (c9_amended_parse_contract cfgEx (Json.str "oops") (Except.ok ())).1 rfl

/-- Claim C1, code evaluation at the failing input: on a successfully parsed
matching request the warp route itself performs the provider send (one send
attempt inside the HTTP handler) and replies 200 — the endpoint does not
merely enqueue. -/
theorem c1_endpoint_sends_inline :
    countSends (webhookRoute cfgEx bodyEx (Except.ok ())).1 = 1
    ∧ (webhookRoute cfgEx bodyEx (Except.ok ())).2.1 = 200 := by
  exact ⟨rfl, rfl⟩

/-- Claim C2: in every reachable state the channel is empty — the producer
handle is never used — and every event in the trace was emitted by the HTTP
serving context, never by the spawned dispatcher. -/
theorem c2_dispatcher_never_receives (config : Config) (s : SysState)
    (h : Reachable config s) :
    s.queue = [] ∧ ∀ p ∈ s.trace, p.1 = Origin.http := by
  induction h with
  | refl => exact ⟨rfl, fun p hp => absurd hp (List.not_mem_nil p)⟩
  | tail hab hbc ih =>
      cases hbc with
      | httpRequest body r =>
          refine ⟨ih.1, fun p hp => ?_⟩
          rcases List.mem_append.mp hp with hp | hp
          · exact ih.2 p hp
          · obtain ⟨e, he, rfl⟩ := List.mem_map.mp hp
            rfl
      | dispatch message rest r hq =>
          rw [ih.1] at hq
          exact List.noConfusion hq

theorem c2_dispatcher_never_receives_witness :
    (SysState.mk []
        ((webhookRoute cfgEx bodyEx (Except.ok ())).1.map (fun e => (Origin.http, e)))).queue = []
    ∧ ∀ p ∈ (SysState.mk []
        ((webhookRoute cfgEx bodyEx (Except.ok ())).1.map (fun e => (Origin.http, e)))).trace,
        p.1 = Origin.http :=
  c2_dispatcher_never_receives cfgEx _
    (Relation.ReflTransGen.single (SysStep.httpRequest initState bodyEx (Except.ok ())))

end ToolRs
